import Mathlib

/-!
Verification of the packaging/verification pipeline of ModularCppFramework
(`tools/package-application.py`) through a shallow embedding in Lean.

The embedding models the pure control flow of the script.  External-world
behavior (the filesystem, the external build tool, the CPU-count query) is
supplied by an `ExtWorld` record of oracles; each pipeline stage is a total
Lean function that returns its result value, the ordered list of messages it
prints (tagged by output channel), the external side effects it performs,
and the Python exception it raises, if any.
-/

/-- Output channel of a printed message: standard output or standard error. -/
inductive Chan
  | out
  | err
deriving DecidableEq

/-- A printed message: channel and text. -/
abbrev Msg := Chan × String

/-- External side effects performed by the pipeline. -/
inductive Effect
  | removedBuildDir
  | madeBuildDir
  | ranCmd (cmd : List String)
  | madeTempDir (path : String)
  | extracted (file : String) (dest : String)
  | ensuredDir (dir : String)
  | copied (dir : String) (name : String)
deriving DecidableEq

/-- Python exceptions that the script can raise and that `main` catches. -/
inductive PyExc
  | calledProcessError
  | fileNotFoundError
  | otherError
deriving DecidableEq

/-- Outcome of one external command invocation (`subprocess.run` with
`check=True`): success, nonzero exit (`CalledProcessError`), or executable
not found (`FileNotFoundError`). -/
inductive CmdOutcome
  | ok
  | calledProcessError
  | fileNotFoundError
deriving DecidableEq

/-- The build-directory portion of the filesystem: whether the directory
exists and whether `CMakeCache.txt` exists inside it. -/
structure FsState where
  buildDirPresent : Bool
  cachePresent : Bool
deriving DecidableEq

/-- Contents of the single top-level package directory found inside an
extraction root, as inspected by `test_package`:  each optional component is
a presence flag plus the directory entries the script enumerates.
`binEntries` pairs each `bin/` entry name with its execute-permission bit. -/
structure PackageDir where
  path : String
  hasBin : Bool
  binEntries : List (String × Bool)
  hasPlugins : Bool
  pluginEntries : List String
  hasConfig : Bool
  configFiles : List String
  hasReadme : Bool
  readmeLines : List String
deriving DecidableEq

/-- An extraction root: its immediate subdirectories (only directories matter
to `test_package`) and the flat list of extracted regular-file paths relative
to the root (printed by `extract_package`). -/
structure ExtractDir where
  subdirs : List PackageDir
  fileList : List String
deriving DecidableEq

/-- Oracles describing the external world for one pipeline run: the CPU-count
query result, the initial filesystem state, the outcome of each of the three
external commands, the immediate entries of the build directory at
artifact-discovery time, whether archive extraction raises, the temporary
directory name `tempfile.mkdtemp` allocates, the extracted tree, and whether
`platform.system()` reports Windows. -/
structure ExtWorld where
  cpu : Except Unit Nat
  fs0 : FsState
  confRes : CmdOutcome
  buildRes : CmdOutcome
  pkgRes : CmdOutcome
  entries : List String
  extractRaises : Bool
  tmp : String
  tree : ExtractDir
  windows : Bool

/-- Result of one pipeline stage: value, printed messages (in order),
external effects (in order), and the raised exception, if any.  Messages and
effects emitted before a raise are retained. -/
structure StRes (α : Type) where
  val : α
  msgs : List Msg
  effs : List Effect
  exc : Option PyExc
deriving DecidableEq

/-- `print_info` writes `[INFO] ...` to stderr. -/
def msgInfo (s : String) : Msg := (Chan.err, "[INFO] " ++ s)

/-- `print_success` writes `[SUCCESS] ...` to stderr. -/
def msgSuccess (s : String) : Msg := (Chan.err, "[SUCCESS] " ++ s)

/-- `print_warning` writes `[WARNING] ...` to stderr. -/
def msgWarning (s : String) : Msg := (Chan.err, "[WARNING] " ++ s)

/-- `print_error` writes `[ERROR] ...` to stderr. -/
def msgError (s : String) : Msg := (Chan.err, "[ERROR] " ++ s)

/-- A bare `print(...)` writes to stdout. -/
def msgOut (s : String) : Msg := (Chan.out, s)

/-- The 40-dash separator printed around README contents. -/
def sepLine : String := String.mk (List.replicate 40 '-')

/-- Python `str.startswith`. -/
def startswith (s p : String) : Bool := p.data.isPrefixOf s.data

/-- Python `str.endswith`. -/
def endswith (s p : String) : Bool := p.data.isSuffixOf s.data

/-- Index of the last occurrence of `c` in `cs` (Python `str.rfind`). -/
def rfindChar (cs : List Char) (c : Char) : Option Nat :=
  match cs.reverse.findIdx? (fun x => x == c) with
  | some j => some (cs.length - 1 - j)
  | none => none

/-- Python `pathlib.PurePath.suffix` applied to a file name: the substring
from the last dot, provided that dot is neither the first nor the last
character; otherwise the empty string. -/
def pySuffix (name : String) : String :=
  match rfindChar name.data '.' with
  | some i => if 0 < i && i + 1 < name.data.length then String.mk (name.data.drop i) else ""
  | none => ""

/-- `fnmatch`-style matching restricted to the pattern shapes this script
uses: a leading `*` followed by a literal suffix matches any name ending in
that suffix; a pattern without wildcards matches only itself. -/
def globMatch (pattern name : String) : Bool :=
  match pattern.data with
  | '*' :: rest => rest.isSuffixOf name.data
  | _ => pattern.data == name.data

/-- The fixed ordered archive-pattern list of `create_package`. -/
def package_patterns : List String := ["*.tar.gz", "*.zip"]

/-- The pattern loop of `create_package`: for each pattern in order, glob the
build-directory entries; the first pattern with any match contributes its
first match. -/
def findPackageAux (entries : List String) : List String → Option String
  | [] => none
  | p :: ps =>
    match entries.filter (fun n => globMatch p n) with
    | f :: _ => some f
    | [] => findPackageAux entries ps

/-- Artifact discovery over the build directory entries (`create_package`,
lines 154-162). -/
def findPackage (entries : List String) : Option String :=
  findPackageAux entries package_patterns

/-- `get_cpu_count`: the CPU-count query, with fallback 4 when it raises. -/
def get_cpu_count (q : Except Unit Nat) : Nat :=
  match q with
  | Except.ok n => n
  | Except.error _ => 4

/-- Job-count resolution in `main` (lines 294-296): auto-detect only when the
given value is zero. -/
def resolveJobs (j : Int) (q : Except Unit Nat) : Int :=
  if j = 0 then ((get_cpu_count q : Nat) : Int) else j

/-- Target normalization in `main` (lines 289-292). -/
def normalizeTarget (t : String) : String :=
  if startswith t "package-" then t else "package-" ++ t

/-- `clean_build_directory` (lines 91-98): recursively remove the build
directory when present; otherwise a warning and no effect.  Never raises. -/
def clean_build_directory (bd : String) (fs : FsState) : StRes FsState :=
  let m0 := [msgInfo ("Cleaning build directory: " ++ bd)]
  if fs.buildDirPresent then
    ⟨⟨false, false⟩, m0 ++ [msgSuccess "Build directory cleaned"], [Effect.removedBuildDir], none⟩
  else
    ⟨fs, m0 ++ [msgWarning "Build directory does not exist, skipping clean"], [], none⟩

/-- The configure command line built by `configure_cmake`. -/
def cmakeConfigureCmd (bd config : String) (verbose : Bool) : List String :=
  ["cmake", "-B", bd, "-DCMAKE_BUILD_TYPE=" ++ config]
    ++ (if verbose then ["-DCMAKE_VERBOSE_MAKEFILE=ON"] else [])

/-- `configure_cmake` (lines 101-119): skip when `CMakeCache.txt` exists;
otherwise create the directory and run the configure command.  Per the
external build-system contract (spec section 6), a successful configure
leaves the cache marker in the build directory. -/
def configure_cmake (fs : FsState) (bd config : String) (verbose : Bool)
    (res : CmdOutcome) : StRes FsState :=
  let m0 := [msgInfo "Configuring CMake..."]
  if fs.cachePresent then
    ⟨fs, m0 ++ [msgInfo "Using existing CMake configuration"], [], none⟩
  else
    let cmd := cmakeConfigureCmd bd config verbose
    let m1 := m0 ++ [msgInfo ("Running: " ++ String.intercalate " " cmd)]
    let effs := [Effect.madeBuildDir, Effect.ranCmd cmd]
    match res with
    | CmdOutcome.ok =>
      ⟨⟨true, true⟩, m1 ++ [msgSuccess "CMake configuration complete"], effs, none⟩
    | CmdOutcome.calledProcessError => ⟨⟨true, false⟩, m1, effs, some PyExc.calledProcessError⟩
    | CmdOutcome.fileNotFoundError => ⟨⟨true, false⟩, m1, effs, some PyExc.fileNotFoundError⟩

/-- The build command line built by `build_project`. -/
def cmakeBuildCmd (bd config : String) (jobs : Int) (verbose : Bool) : List String :=
  ["cmake", "--build", bd, "--config", config, "-j", toString jobs]
    ++ (if verbose then ["--verbose"] else [])

/-- `build_project` (lines 122-134): always runs the build command. -/
def build_project (bd config : String) (jobs : Int) (verbose : Bool)
    (res : CmdOutcome) : StRes Unit :=
  let cmd := cmakeBuildCmd bd config jobs verbose
  let m := [msgInfo "Building project dependencies...",
            msgInfo ("Running: " ++ String.intercalate " " cmd)]
  match res with
  | CmdOutcome.ok => ⟨(), m ++ [msgSuccess "Build complete"], [Effect.ranCmd cmd], none⟩
  | CmdOutcome.calledProcessError => ⟨(), m, [Effect.ranCmd cmd], some PyExc.calledProcessError⟩
  | CmdOutcome.fileNotFoundError => ⟨(), m, [Effect.ranCmd cmd], some PyExc.fileNotFoundError⟩

/-- The packaging command line built by `create_package`. -/
def cmakePackageCmd (bd target : String) (verbose : Bool) : List String :=
  ["cmake", "--build", bd, "--target", target]
    ++ (if verbose then ["--verbose"] else [])

/-- `create_package` (lines 137-169): run the packaging target, then discover
the produced artifact among the build-directory entries; `none` with an error
message when no entry matches any pattern. -/
def create_package (bd target : String) (verbose : Bool) (res : CmdOutcome)
    (entries : List String) : StRes (Option String) :=
  let cmd := cmakePackageCmd bd target verbose
  let m0 := [msgInfo ("Creating package: " ++ target)]
  match res with
  | CmdOutcome.calledProcessError => ⟨none, m0, [Effect.ranCmd cmd], some PyExc.calledProcessError⟩
  | CmdOutcome.fileNotFoundError => ⟨none, m0, [Effect.ranCmd cmd], some PyExc.fileNotFoundError⟩
  | CmdOutcome.ok =>
    match findPackage entries with
    | none =>
      ⟨none, m0 ++ [msgError ("Package file not found in " ++ bd)], [Effect.ranCmd cmd], none⟩
    | some f =>
      ⟨some f, m0 ++ [msgSuccess ("Package created: " ++ f)], [Effect.ranCmd cmd], none⟩

/-- `extract_package` (lines 172-200): allocate a fresh temporary directory,
dispatch on the artifact suffix (`.gz` for gzip-tar, `.zip` for zip), extract
fully, and print the list of extracted files.  An unrecognized suffix prints
an error and returns `none` without raising; archive-library errors while
extracting raise an exception.  `bd` and `f` are the build directory and the
artifact file name, so the artifact path is their join. -/
def extract_package (bd f : String) (w : ExtWorld) : StRes (Option String) :=
  let full := bd ++ "/" ++ f
  let m0 := [msgInfo "Extracting package for verification..."]
  let e0 := [Effect.madeTempDir w.tmp]
  if pySuffix f = ".gz" then
    if w.extractRaises then ⟨none, m0, e0, some PyExc.otherError⟩
    else
      ⟨some w.tmp,
       m0 ++ [msgSuccess ("Package extracted to: " ++ w.tmp), msgInfo "Package contents:"]
          ++ w.tree.fileList.map (fun p => (Chan.err, "  " ++ p)),
       e0 ++ [Effect.extracted full w.tmp], none⟩
  else if pySuffix f = ".zip" then
    if w.extractRaises then ⟨none, m0, e0, some PyExc.otherError⟩
    else
      ⟨some w.tmp,
       m0 ++ [msgSuccess ("Package extracted to: " ++ w.tmp), msgInfo "Package contents:"]
          ++ w.tree.fileList.map (fun p => (Chan.err, "  " ++ p)),
       e0 ++ [Effect.extracted full w.tmp], none⟩
  else
    ⟨none, m0 ++ [msgError ("Unknown package format: " ++ full)], e0, none⟩

/-- The executable count computed by `test_package` (lines 227-231): on
Windows, entries with suffix `.exe`; elsewhere, entries with the execute
bit. -/
def countExecutables (windows : Bool) (entries : List (String × Bool)) : Nat :=
  if windows then (entries.filter (fun e => pySuffix e.1 = ".exe")).length
  else (entries.filter (fun e => e.2)).length

/-- The shared-library patterns of `test_package` (line 237). -/
def plugin_patterns : List String := ["*.so", "*.dll", "*.dylib"]

/-- The plugin count computed by `test_package` (lines 237-241): matches of
each pattern in order, concatenated. -/
def countPlugins (entries : List String) : Nat :=
  ((plugin_patterns.map (fun p => entries.filter (fun n => globMatch p n))).flatten).length

/-- `test_package` (lines 203-270): locate the first subdirectory of the
extraction root, then check `bin/`, `plugins/`, `config/` and `README.txt`.
Only a missing extraction subdirectory or a missing `bin/` makes the
returned status false.  `extractPath` is the extraction-root path used in
messages. -/
def test_package (windows : Bool) (extractPath : String) (d : ExtractDir) :
    Bool × List Msg :=
  let m0 := [msgInfo "Running basic package tests..."]
  match d.subdirs with
  | [] => (false, m0 ++ [msgError ("Could not find package directory in " ++ extractPath)])
  | pd :: _ =>
    let m1 := m0 ++ [msgInfo ("Package directory: " ++ pd.path),
                     msgInfo "Checking directory structure..."]
    let errors : Nat := if pd.hasBin then 0 else 1
    let mBin :=
      if pd.hasBin then
        [msgSuccess "bin/ directory found",
         msgInfo ("  Executables: " ++ toString (countExecutables windows pd.binEntries))]
      else [msgWarning "Missing bin/ directory"]
    let mPlug :=
      if pd.hasPlugins then
        [msgSuccess "plugins/ directory found",
         msgInfo ("  Plugins: " ++ toString (countPlugins pd.pluginEntries))]
      else []
    let mConf :=
      if pd.hasConfig then
        [msgSuccess "config/ directory found",
         msgInfo ("  Config files: " ++ toString pd.configFiles.length)]
      else []
    let mReadme :=
      if pd.hasReadme then
        [msgSuccess "README.txt found", msgInfo "README contents:",
         msgOut sepLine, msgOut (String.join (pd.readmeLines.take 20)), msgOut sepLine]
      else [msgWarning "Missing README.txt"]
    let mFinal :=
      if errors == 0 then [msgSuccess "All package tests passed"]
      else [msgWarning ("Package tests completed with " ++ toString errors ++ " warnings")]
    let mTail := [msgInfo ("Extracted package location: " ++ pd.path),
                  msgInfo ("You can manually test by running: cd " ++ pd.path
                             ++ " && ./bin/<executable>")]
    (errors == 0, m1 ++ mBin ++ mPlug ++ mConf ++ mReadme ++ mFinal ++ mTail)

/-- `copy_to_output` (lines 273-281): ensure the output directory exists
(with parents, existing directory tolerated), then copy the artifact into it
under its own name.  Returns (messages, effects). -/
def copy_to_output (f od : String) : List Msg × List Effect :=
  ([msgInfo "Copying package to output directory...",
    msgSuccess ("Package copied to: " ++ od ++ "/" ++ f)],
   [Effect.ensuredDir od, Effect.copied od f])

/-- The error message printed by the `except` clauses of `main`
(lines 348-356); the textual repr of the Python exception object is
abstracted to the exception type name. -/
def caughtMsg (e : PyExc) : Msg :=
  match e with
  | PyExc.calledProcessError => msgError "Command failed: CalledProcessError"
  | PyExc.fileNotFoundError => msgError "File not found: FileNotFoundError"
  | PyExc.otherError => msgError "Unexpected error: Exception"

/-- The `try` block of `main` (lines 313-356), sequencing the stages and
converting a raised exception into exit status 1.  `target`, `jobs` and
`extract` are the values of the corresponding (possibly rewritten) argument
fields at line 313. -/
def runStages (args_clean : Bool) (args_test : Bool) (args_verbose : Bool)
    (bd config output target : String) (jobs : Int) (extract : Bool)
    (w : ExtWorld) : Int × List Msg × List Effect :=
  let c := if args_clean then clean_build_directory bd w.fs0 else ⟨w.fs0, [], [], none⟩
  let cfg := configure_cmake c.val bd config args_verbose w.confRes
  match cfg.exc with
  | some e => (1, c.msgs ++ cfg.msgs ++ [caughtMsg e], c.effs ++ cfg.effs)
  | none =>
    let bld := build_project bd config jobs args_verbose w.buildRes
    match bld.exc with
    | some e => (1, c.msgs ++ cfg.msgs ++ bld.msgs ++ [caughtMsg e],
                 c.effs ++ cfg.effs ++ bld.effs)
    | none =>
      let pkg := create_package bd target args_verbose w.pkgRes w.entries
      match pkg.exc with
      | some e => (1, c.msgs ++ cfg.msgs ++ bld.msgs ++ pkg.msgs ++ [caughtMsg e],
                   c.effs ++ cfg.effs ++ bld.effs ++ pkg.effs)
      | none =>
        match pkg.val with
        | none => (1, c.msgs ++ cfg.msgs ++ bld.msgs ++ pkg.msgs
                        ++ [msgError "Packaging failed"],
                   c.effs ++ cfg.effs ++ bld.effs ++ pkg.effs)
        | some f =>
          let ex := if extract then extract_package bd f w else ⟨none, [], [], none⟩
          match ex.exc with
          | some e => (1, c.msgs ++ cfg.msgs ++ bld.msgs ++ pkg.msgs ++ ex.msgs
                            ++ [caughtMsg e],
                       c.effs ++ cfg.effs ++ bld.effs ++ pkg.effs ++ ex.effs)
          | none =>
            let tst := if args_test && ex.val.isSome
                       then (test_package w.windows w.tmp w.tree).2 else []
            let cpy := if output = "" then ([], []) else copy_to_output f output
            let tail := [msgOut "", msgSuccess "Packaging complete!",
                         msgInfo ("Package location: " ++ bd ++ "/" ++ f)]
              ++ (if output = "" then []
                  else [msgInfo ("Output location: " ++ output ++ "/" ++ f)])
              ++ (match ex.val with
                  | some t => [msgInfo ("Extracted for testing: " ++ t)]
                  | none => [])
            (0, c.msgs ++ cfg.msgs ++ bld.msgs ++ pkg.msgs ++ ex.msgs ++ tst
                  ++ cpy.1 ++ tail,
             c.effs ++ cfg.effs ++ bld.effs ++ pkg.effs ++ ex.effs ++ cpy.2)

/-- The parsed command-line arguments of the script. -/
structure Args where
  target : String
  buildDir : String
  config : String
  output : String
  jobs : Int
  clean : Bool
  extract : Bool
  test : Bool
  verbose : Bool

/-- The body of `main` (lines 284-356): normalize the target, resolve the job count,
force extraction when testing, print the header, run the stages.  Returns
(exit status, printed messages, external effects). -/
def mainRun (args : Args) (w : ExtWorld) : Int × List Msg × List Effect :=
  let target := normalizeTarget args.target
  let warnM :=
    if startswith args.target "package-" then []
    else [msgWarning "Target name should start with package-. Prepending it automatically."]
  let jobs := resolveJobs args.jobs w.cpu
  let extract := args.extract || args.test
  let hdr := [msgInfo "MCF Application Packaging Tool",
              msgInfo (String.mk (List.replicate 31 '=')),
              msgInfo ("Package Target: " ++ target),
              msgInfo ("Build Directory: " ++ args.buildDir),
              msgInfo ("Build Type: " ++ args.config),
              msgInfo ("Build Jobs: " ++ toString jobs),
              msgOut ""]
  let r := runStages args.clean args.test args.verbose args.buildDir args.config
             args.output target jobs extract w
  (r.1, warnM ++ hdr ++ r.2.1, r.2.2)

/-- Discriminator: is this effect an external command invocation? -/
def Effect.isRanCmd : Effect → Bool
  | Effect.ranCmd _ => true
  | _ => false

/-- Discriminator: is this effect a copy into the output directory? -/
def Effect.isCopied : Effect → Bool
  | Effect.copied _ _ => true
  | _ => false

/-- Discriminator: is this effect a temporary-directory allocation? -/
def Effect.isMadeTempDir : Effect → Bool
  | Effect.madeTempDir _ => true
  | _ => false

/-- Number of external command invocations in an effect list. -/
def cmdCount (effs : List Effect) : Nat := (effs.filter Effect.isRanCmd).length

/-- Split a character list at each `/` (helper for path-segment splitting);
the accumulator holds the current segment reversed. -/
def splitSegsAux : List Char → List Char → List (List Char)
  | [], acc => [acc.reverse]
  | c :: rest, acc =>
    if c = '/' then acc.reverse :: splitSegsAux rest [] else splitSegsAux rest (c :: acc)

/-- Rejoin path segments with `/`. -/
def joinSegs : List (List Char) → List Char
  | [] => []
  | [x] => x
  | x :: xs => x ++ '/' :: joinSegs xs

/-- The `/`-separated segments of a path string. -/
def splitPathChars (s : String) : List (List Char) := splitSegsAux s.data []

/-- All ancestor paths of `p`, shortest first, ending with `p` itself. -/
def prefixJoins (p : String) : List String :=
  (List.range (splitPathChars p).length).map
    (fun i => String.mk (joinSegs ((splitPathChars p).take (i + 1))))

/-- Python `Path.mkdir(parents=True, exist_ok=True)`: ensure the directory
and every ancestor exists; an already-existing directory is tolerated.
Modeled as adding every ancestor path to the set of existing directories. -/
def mkdirParents (dirs : List String) (p : String) : List String := dirs ++ prefixJoins p

/-- The output-directory portion of the filesystem: existing directories and
(directory, file-name) pairs of existing files. -/
structure OutFs where
  dirs : List String
  files : List (String × String)
deriving DecidableEq

/-- Interpretation of the filesystem effects relevant to publishing. -/
def applyEffect (fs : OutFs) : Effect → OutFs
  | Effect.ensuredDir d => ⟨mkdirParents fs.dirs d, fs.files⟩
  | Effect.copied d f => ⟨fs.dirs, fs.files ++ [(d, f)]⟩
  | _ => fs

/-- The stdout discipline the pipeline actually follows: a message on the
standard output channel is a blank spacer line, a README separator line, or
the first 20 README lines of the package directory under test. -/
def stdoutOk (w : ExtWorld) (m : Msg) : Prop :=
  m.1 = Chan.out →
    m.2 = "" ∨ m.2 = sepLine ∨
      ∃ pd, w.tree.subdirs.head? = some pd
            ∧ m.2 = String.join (pd.readmeLines.take 20)

/-- A run requesting verification (`--extract`) and publishing (`-o dist`)
whose build directory contains a single entry named `.zip`:  the glob
pattern `*.zip` matches it, but its path suffix is empty, so extraction hits
the unknown-format branch. -/
def argsC1 : Args := ⟨"package-app", "build", "Release", "dist", 4, false, true, false, false⟩

/-- World for `argsC1`: every external command succeeds and the build
directory holds exactly the file `.zip`. -/
def worldC1 : ExtWorld :=
  ⟨Except.ok 8, ⟨true, true⟩, CmdOutcome.ok, CmdOutcome.ok, CmdOutcome.ok,
   [".zip"], false, "tmpdir", ⟨[], []⟩, false⟩

/-- A run with `--test` whose extracted package has a README.txt. -/
def argsC2 : Args := ⟨"package-app", "build", "Release", "", 4, false, false, true, false⟩

/-- The extracted package directory for `worldC2`: complete layout with a
README. -/
def pdC2 : PackageDir :=
  ⟨"tmpdir/app", true, [("app", true)], false, [], false, [], true, ["hello\n"]⟩

/-- World for `argsC2`: a successful run producing `app.tar.gz` whose
extraction contains `pdC2`. -/
def worldC2 : ExtWorld :=
  ⟨Except.ok 8, ⟨true, true⟩, CmdOutcome.ok, CmdOutcome.ok, CmdOutcome.ok,
   ["app.tar.gz"], false, "tmpdir", ⟨[pdC2], ["app/bin/app"]⟩, false⟩

/-- A package directory with every optional component present except
`bin/`. -/
def pdNoBin : PackageDir :=
  ⟨"tmpdir/app", false, [], true, ["a.so"], true, ["app.cfg"], true, ["hi\n"]⟩

/-- An extraction root whose single package directory is `pdNoBin`: step 1 of
the validator succeeds. -/
def dNoBin : ExtractDir := ⟨[pdNoBin], []⟩

/-- A successful configure step reports no exception, whatever the cache
state. -/
theorem configure_ok_exc (fs : FsState) (bd c : String) (v : Bool) :
    (configure_cmake fs bd c v CmdOutcome.ok).exc = none := by
  obtain ⟨p, cp⟩ := fs
  cases cp <;> simp [configure_cmake]

/-- A successful build step reports no exception. -/
theorem build_ok_exc (bd c : String) (j : Int) (v : Bool) :
    (build_project bd c j v CmdOutcome.ok).exc = none := rfl

/-- A successful packaging step reports no exception and returns exactly the
discovered artifact. -/
theorem create_ok (bd t : String) (v : Bool) (entries : List String) :
    (create_package bd t v CmdOutcome.ok entries).exc = none
    ∧ (create_package bd t v CmdOutcome.ok entries).val = findPackage entries := by
  unfold create_package
  cases h : findPackage entries <;> simp [h]

/-- `globMatch` on the first archive pattern is suffix matching. -/
theorem globMatch_targz (n : String) : globMatch "*.tar.gz" n = endswith n ".tar.gz" := rfl

/-- `globMatch` on the second archive pattern is suffix matching. -/
theorem globMatch_zip (n : String) : globMatch "*.zip" n = endswith n ".zip" := rfl

/-- Claim C4: a target lacking the `package-` prefix is resolved by
prepending exactly one instance of the prefix, a target already carrying the
prefix is left unchanged, and normalization is idempotent. -/
theorem normalizeTarget_spec (t : String) :
    (startswith t "package-" = false → normalizeTarget t = "package-" ++ t)
    ∧ (startswith t "package-" = true → normalizeTarget t = t)
    ∧ normalizeTarget (normalizeTarget t) = normalizeTarget t := by
  refine ⟨fun h => by simp [normalizeTarget, h], fun h => by simp [normalizeTarget, h], ?_⟩
  by_cases h : startswith t "package-"
  · simp [normalizeTarget, h]
  · have h2 : startswith ("package-" ++ t) "package-" = true := by
      simp only [startswith, String.data_append]
      simp only [List.isPrefixOf_iff_prefix, List.prefix_append]
    simp [normalizeTarget, h, h2]

/-- Witness for `normalizeTarget_spec` at the target `my_app`. -/
theorem normalizeTarget_spec_witness :
    normalizeTarget "my_app" = "package-" ++ "my_app"
    ∧ normalizeTarget (normalizeTarget "my_app") = normalizeTarget "my_app" :=
  ⟨(normalizeTarget_spec "my_app").1 (by decide), (normalizeTarget_spec "my_app").2.2⟩

/-- Claim C9: a zero job count with an unanswerable CPU query resolves to 4;
a nonzero job count is passed through unchanged without consulting the
query; a zero job count otherwise resolves to the detected CPU count. -/
theorem jobs_resolution :
    get_cpu_count (Except.error ()) = 4
    ∧ (∀ (j : Int) (q : Except Unit Nat), j ≠ 0 → resolveJobs j q = j)
    ∧ (∀ q : Except Unit Nat, resolveJobs 0 q = Int.ofNat (get_cpu_count q)) := by
  refine ⟨rfl, fun j q h => by simp [resolveJobs, h], fun q => by simp [resolveJobs]⟩

/-- Witness for `jobs_resolution` at job counts 3 and 0. -/
theorem jobs_resolution_witness :
    resolveJobs 3 (Except.ok 8) = 3
    ∧ resolveJobs 0 (Except.error ()) = Int.ofNat (get_cpu_count (Except.error ())) :=
  ⟨jobs_resolution.2.1 3 (Except.ok 8) (by decide), jobs_resolution.2.2 (Except.error ())⟩

/-- Claim C8: `clean` is idempotent, never raises, removes an existing build
directory recursively, and on a nonexistent directory is a no-op that only
warns. -/
theorem clean_idempotent (bd : String) (fs : FsState) :
    (clean_build_directory bd (clean_build_directory bd fs).val).val
        = (clean_build_directory bd fs).val
    ∧ (clean_build_directory bd fs).exc = none
    ∧ (fs.buildDirPresent = true →
        (clean_build_directory bd fs).val = ⟨false, false⟩
        ∧ (clean_build_directory bd fs).effs = [Effect.removedBuildDir])
    ∧ (fs.buildDirPresent = false →
        (clean_build_directory bd fs).val = fs
        ∧ (clean_build_directory bd fs).effs = []
        ∧ msgWarning "Build directory does not exist, skipping clean"
            ∈ (clean_build_directory bd fs).msgs) := by
  obtain ⟨p, c⟩ := fs
  cases p <;> simp [clean_build_directory]

/-- Witness for `clean_idempotent` on an existing and on a missing build
directory. -/
theorem clean_idempotent_witness :
    (clean_build_directory "build" ⟨true, true⟩).val = ⟨false, false⟩
    ∧ (clean_build_directory "build" ⟨false, false⟩).effs = [] :=
  ⟨((clean_idempotent "build" ⟨true, true⟩).2.2.1 rfl).1,
   ((clean_idempotent "build" ⟨false, false⟩).2.2.2 rfl).2.1⟩

/-- Claim C5: when the cache marker is present, `configure_cmake` is a no-op
that issues no command regardless of the build type; and two consecutive
invocations without an intervening clean, the first of which does not raise,
issue the external configure command at most once. -/
theorem configure_idempotent (fs : FsState) (bd c1 c2 : String) (v1 v2 : Bool)
    (r1 r2 : CmdOutcome) :
    (fs.cachePresent = true →
      configure_cmake fs bd c1 v1 r1
        = ⟨fs, [msgInfo "Configuring CMake...",
                msgInfo "Using existing CMake configuration"], [], none⟩)
    ∧ ((configure_cmake fs bd c1 v1 r1).exc = none →
        cmdCount (configure_cmake fs bd c1 v1 r1).effs
          + cmdCount (configure_cmake (configure_cmake fs bd c1 v1 r1).val bd c2 v2 r2).effs
          ≤ 1) := by
  obtain ⟨p, cp⟩ := fs
  constructor
  · intro h
    subst h
    simp [configure_cmake]
  · cases cp
    · cases r1 <;> simp [configure_cmake, cmdCount, Effect.isRanCmd]
    · simp [configure_cmake, cmdCount]

/-- Witness for `configure_idempotent`: a cached directory is a no-op, and a
fresh directory configured twice issues one command. -/
theorem configure_idempotent_witness :
    configure_cmake ⟨true, true⟩ "build" "Debug" false CmdOutcome.ok
      = ⟨⟨true, true⟩, [msgInfo "Configuring CMake...",
          msgInfo "Using existing CMake configuration"], [], none⟩
    ∧ cmdCount (configure_cmake ⟨false, false⟩ "build" "Release" false CmdOutcome.ok).effs
        + cmdCount (configure_cmake
            (configure_cmake ⟨false, false⟩ "build" "Release" false CmdOutcome.ok).val
            "build" "Release" false CmdOutcome.ok).effs ≤ 1 :=
  ⟨(configure_idempotent ⟨true, true⟩ "build" "Debug" "Debug" false false
      CmdOutcome.ok CmdOutcome.ok).1 rfl,
   (configure_idempotent ⟨false, false⟩ "build" "Release" "Release" false false
      CmdOutcome.ok CmdOutcome.ok).2 rfl⟩

/-- Claim C6: when the build directory holds both a `*.tar.gz` match and a
`*.zip` match, discovery selects exactly one artifact and it matches
`*.tar.gz`. -/
theorem discovery_prefers_targz (entries : List String)
    (h1 : ∃ a ∈ entries, endswith a ".tar.gz" = true)
    (_h2 : ∃ b ∈ entries, endswith b ".zip" = true) :
    ∃ f, findPackage entries = some f ∧ endswith f ".tar.gz" = true := by
  obtain ⟨a, ha, hsuf⟩ := h1
  have hmem : a ∈ entries.filter (fun n => globMatch "*.tar.gz" n) :=
    List.mem_filter.mpr ⟨ha, by rw [globMatch_targz]; exact hsuf⟩
  cases hf : entries.filter (fun n => globMatch "*.tar.gz" n) with
  | nil => rw [hf] at hmem; cases hmem
  | cons f t =>
    refine ⟨f, ?_, ?_⟩
    · simp [findPackage, package_patterns, findPackageAux, hf]
    · have hm : f ∈ entries.filter (fun n => globMatch "*.tar.gz" n) :=
        hf ▸ List.mem_cons_self f t
      rw [← globMatch_targz]
      exact (List.mem_filter.mp hm).2

/-- Witness for `discovery_prefers_targz` on a directory holding `a.zip` and
`b.tar.gz`. -/
theorem discovery_prefers_targz_witness :
    ∃ f, findPackage ["a.zip", "b.tar.gz"] = some f ∧ endswith f ".tar.gz" = true :=
  discovery_prefers_targz ["a.zip", "b.tar.gz"]
    ⟨"b.tar.gz", by decide, by decide⟩ ⟨"a.zip", by decide, by decide⟩

/-- Claim C3 as stated is false: on `dNoBin` step 1 succeeds (a package
subdirectory exists), only `bin/` is missing, and yet the overall status of
`test_package` is fail (false). -/
theorem validator_fails_on_missing_bin :
    (test_package false "tmpdir" dNoBin).1 = false
    ∧ dNoBin.subdirs.head?.isSome = true := by decide

/-- Claim C3 amended: the overall status of the structural validator is pass
exactly when a top-level package subdirectory exists and it contains `bin/`;
a missing `bin/` therefore also makes the overall status fail, while missing
`plugins/`, `config/` or `README.txt` never affect the status. -/
theorem validator_status (windows : Bool) (extractPath : String) (d : ExtractDir) :
    (test_package windows extractPath d).1
      = (match d.subdirs.head? with
         | some pd => pd.hasBin
         | none => false) := by
  obtain ⟨subdirs, fileList⟩ := d
  cases subdirs with
  | nil => simp [test_package]
  | cons pd t => cases h : pd.hasBin <;> simp [test_package, h]

/-- `splitSegsAux` always yields at least one segment. -/
theorem splitSegsAux_ne_nil (cs acc : List Char) : splitSegsAux cs acc ≠ [] := by
  induction cs generalizing acc with
  | nil => simp [splitSegsAux]
  | cons c rest ih =>
    simp only [splitSegsAux]
    split
    · simp
    · exact ih _

/-- `joinSegs` on a list of at least two segments peels the head. -/
theorem joinSegs_cons (a : List Char) (l : List (List Char)) (h : l ≠ []) :
    joinSegs (a :: l) = a ++ '/' :: joinSegs l := by
  cases l with
  | nil => cases h rfl
  | cons b t => rfl

/-- Splitting then joining restores the original characters (with the
accumulated partial segment in front). -/
theorem joinSegs_splitSegsAux (cs : List Char) : ∀ acc : List Char,
    joinSegs (splitSegsAux cs acc) = acc.reverse ++ cs := by
  induction cs with
  | nil => intro acc; simp [splitSegsAux, joinSegs]
  | cons c rest ih =>
    intro acc
    simp only [splitSegsAux]
    split
    · rename_i hc
      rw [joinSegs_cons _ _ (splitSegsAux_ne_nil _ _), ih []]
      simp [hc]
    · rw [ih]
      simp

/-- Splitting a path at `/` and rejoining restores the path. -/
theorem mk_joinSegs_splitPathChars (p : String) :
    String.mk (joinSegs (splitPathChars p)) = p := by
  obtain ⟨cs⟩ := p
  show String.mk (joinSegs (splitSegsAux cs [])) = String.mk cs
  rw [joinSegs_splitSegsAux]
  rfl

/-- Every path is among its own ancestor-join list. -/
theorem self_mem_prefixJoins (od : String) : od ∈ prefixJoins od := by
  have hne : splitPathChars od ≠ [] := splitSegsAux_ne_nil od.data []
  have hlen : 0 < (splitPathChars od).length := List.length_pos.mpr hne
  refine List.mem_map.mpr ⟨(splitPathChars od).length - 1, ?_, ?_⟩
  · exact List.mem_range.mpr (by omega)
  · have h : (splitPathChars od).length - 1 + 1 = (splitPathChars od).length := by omega
    rw [h, List.take_length]
    exact mk_joinSegs_splitPathChars od

/-- Claim C10: publishing first ensures the output directory (and every
ancestor) exists — tolerating an already-existing directory — and then
copies the artifact into it under the artifact's own file name, preserving
all previously existing directories and files. -/
theorem copy_to_output_spec (f od : String) (fs : OutFs) :
    (copy_to_output f od).2 = [Effect.ensuredDir od, Effect.copied od f]
    ∧ (∀ q ∈ prefixJoins od,
        q ∈ (((copy_to_output f od).2).foldl applyEffect fs).dirs)
    ∧ od ∈ (((copy_to_output f od).2).foldl applyEffect fs).dirs
    ∧ (od, f) ∈ (((copy_to_output f od).2).foldl applyEffect fs).files
    ∧ (∀ d ∈ fs.dirs, d ∈ (((copy_to_output f od).2).foldl applyEffect fs).dirs)
    ∧ (∀ x ∈ fs.files, x ∈ (((copy_to_output f od).2).foldl applyEffect fs).files) := by
  have hfold : ((copy_to_output f od).2).foldl applyEffect fs
      = ⟨fs.dirs ++ prefixJoins od, fs.files ++ [(od, f)]⟩ := rfl
  refine ⟨rfl, ?_, ?_, ?_, ?_, ?_⟩
  · intro q hq
    rw [hfold]
    exact List.mem_append_right _ hq
  · rw [hfold]
    exact List.mem_append_right _ (self_mem_prefixJoins od)
  · rw [hfold]
    exact List.mem_append_right _ (by simp)
  · intro d hd
    rw [hfold]
    exact List.mem_append_left _ hd
  · intro x hx
    rw [hfold]
    exact List.mem_append_left _ hx

/-- Witness for `copy_to_output_spec`: publishing `pkg.tar.gz` into
`out/dist` over a filesystem already holding directory `keep`. -/
theorem copy_to_output_spec_witness :
    ("out/dist", "pkg.tar.gz")
        ∈ (((copy_to_output "pkg.tar.gz" "out/dist").2).foldl applyEffect
             (⟨["keep"], []⟩ : OutFs)).files
    ∧ "out" ∈ (((copy_to_output "pkg.tar.gz" "out/dist").2).foldl applyEffect
             (⟨["keep"], []⟩ : OutFs)).dirs
    ∧ "keep" ∈ (((copy_to_output "pkg.tar.gz" "out/dist").2).foldl applyEffect
             (⟨["keep"], []⟩ : OutFs)).dirs :=
  ⟨(copy_to_output_spec "pkg.tar.gz" "out/dist" ⟨["keep"], []⟩).2.2.2.1,
   (copy_to_output_spec "pkg.tar.gz" "out/dist" ⟨["keep"], []⟩).2.1 "out" (by decide),
   (copy_to_output_spec "pkg.tar.gz" "out/dist" ⟨["keep"], []⟩).2.2.2.2.1 "keep"
     (by decide)⟩


/-- A successful packaging step reports no exception. -/
theorem create_ok_exc (bd t : String) (v : Bool) (entries : List String) :
    (create_package bd t v CmdOutcome.ok entries).exc = none :=
  (create_ok bd t v entries).1

/-- A successful packaging step returns exactly the discovered artifact. -/
theorem create_ok_val (bd t : String) (v : Bool) (entries : List String) :
    (create_package bd t v CmdOutcome.ok entries).val = findPackage entries :=
  (create_ok bd t v entries).2

/-- A list whose entries all carry the stderr tag contains only stderr
messages. -/
theorem all_err_mem {ms : List Msg}
    (h : (ms.all fun x => decide (x.1 = Chan.err)) = true) :
    ∀ m ∈ ms, m.1 = Chan.err := by
  intro m hm
  simpa using List.all_eq_true.mp h m hm

/-- A stderr-tagged message is not a stdout message. -/
theorem err_ne_out {m : Msg} (h : m.1 = Chan.err) : ¬ m.1 = Chan.out := by
  rw [h]
  intro h2
  exact Chan.noConfusion h2

/-- A list whose entries all avoid temporary-directory and copy effects
contains no such effect. -/
theorem all_safe_mem {es : List Effect}
    (h : (es.all fun x => !x.isMadeTempDir && !x.isCopied) = true) :
    ∀ e ∈ es, e.isMadeTempDir = false ∧ e.isCopied = false := by
  intro e he
  have := List.all_eq_true.mp h e he
  simp only [Bool.and_eq_true, Bool.not_eq_true'] at this
  exact this

/-- `clean` performs no temporary-directory allocation and no copy. -/
theorem clean_effs_safe (bd : String) (fs : FsState) :
    ∀ e ∈ (clean_build_directory bd fs).effs,
      e.isMadeTempDir = false ∧ e.isCopied = false := by
  obtain ⟨p, c⟩ := fs
  cases p <;> exact all_safe_mem rfl

/-- `configure_cmake` performs no temporary-directory allocation and no
copy. -/
theorem configure_effs_safe (fs : FsState) (bd c : String) (v : Bool) (r : CmdOutcome) :
    ∀ e ∈ (configure_cmake fs bd c v r).effs,
      e.isMadeTempDir = false ∧ e.isCopied = false := by
  obtain ⟨p, cp⟩ := fs
  cases cp <;> cases r <;> exact all_safe_mem rfl

/-- `build_project` performs no temporary-directory allocation and no
copy. -/
theorem build_effs_safe (bd c : String) (j : Int) (v : Bool) (r : CmdOutcome) :
    ∀ e ∈ (build_project bd c j v r).effs,
      e.isMadeTempDir = false ∧ e.isCopied = false := by
  cases r <;> exact all_safe_mem rfl

/-- `create_package` performs no temporary-directory allocation and no
copy. -/
theorem create_effs_safe (bd t : String) (v : Bool) (r : CmdOutcome)
    (entries : List String) :
    ∀ e ∈ (create_package bd t v r entries).effs,
      e.isMadeTempDir = false ∧ e.isCopied = false := by
  cases r with
  | ok =>
    unfold create_package
    cases hf : findPackage entries <;> exact all_safe_mem rfl
  | calledProcessError => exact all_safe_mem rfl
  | fileNotFoundError => exact all_safe_mem rfl

/-- All `clean` messages go to stderr. -/
theorem clean_msgs_err (bd : String) (fs : FsState) :
    ∀ m ∈ (clean_build_directory bd fs).msgs, m.1 = Chan.err := by
  obtain ⟨p, c⟩ := fs
  cases p <;> exact all_err_mem rfl

/-- All `configure_cmake` messages go to stderr. -/
theorem configure_msgs_err (fs : FsState) (bd c : String) (v : Bool) (r : CmdOutcome) :
    ∀ m ∈ (configure_cmake fs bd c v r).msgs, m.1 = Chan.err := by
  obtain ⟨p, cp⟩ := fs
  cases cp <;> cases r <;> exact all_err_mem rfl

/-- All `build_project` messages go to stderr. -/
theorem build_msgs_err (bd c : String) (j : Int) (v : Bool) (r : CmdOutcome) :
    ∀ m ∈ (build_project bd c j v r).msgs, m.1 = Chan.err := by
  cases r <;> exact all_err_mem rfl

/-- All `create_package` messages go to stderr. -/
theorem create_msgs_err (bd t : String) (v : Bool) (r : CmdOutcome)
    (entries : List String) :
    ∀ m ∈ (create_package bd t v r entries).msgs, m.1 = Chan.err := by
  cases r with
  | ok =>
    unfold create_package
    cases hf : findPackage entries <;> exact all_err_mem rfl
  | calledProcessError => exact all_err_mem rfl
  | fileNotFoundError => exact all_err_mem rfl

/-- All `extract_package` messages go to stderr. -/
theorem extract_msgs_err (bd f : String) (w : ExtWorld) :
    ∀ m ∈ (extract_package bd f w).msgs, m.1 = Chan.err := by
  intro m hm
  unfold extract_package at hm
  split at hm
  · split at hm
    · exact all_err_mem (by rfl) m hm
    · rcases List.mem_append.mp hm with h1 | h1
      · exact all_err_mem (by rfl) m h1
      · rcases List.mem_map.mp h1 with ⟨p, hp, rfl⟩
        rfl
  · split at hm
    · split at hm
      · exact all_err_mem (by rfl) m hm
      · rcases List.mem_append.mp hm with h1 | h1
        · exact all_err_mem (by rfl) m h1
        · rcases List.mem_map.mp h1 with ⟨p, hp, rfl⟩
          rfl
    · exact all_err_mem (by rfl) m hm

/-- All `copy_to_output` messages go to stderr. -/
theorem copy_msgs_err (f od : String) :
    ∀ m ∈ (copy_to_output f od).1, m.1 = Chan.err := by
  exact all_err_mem rfl

/-- The exception-handler message goes to stderr. -/
theorem caughtMsg_err (e : PyExc) : (caughtMsg e).1 = Chan.err := by
  cases e <;> rfl

/-- Stdout messages of `test_package` are exactly the README display: the
separator lines and the first 20 README lines of the package directory. -/
theorem test_package_out (windows : Bool) (extractPath : String) (d : ExtractDir) :
    ∀ m ∈ (test_package windows extractPath d).2, m.1 = Chan.out →
      m.2 = sepLine
      ∨ ∃ pd, d.subdirs.head? = some pd
              ∧ m.2 = String.join (pd.readmeLines.take 20) := by
  intro m hm hout
  obtain ⟨subdirs, fileList⟩ := d
  cases subdirs with
  | nil =>
    exact absurd hout (err_ne_out (all_err_mem (by rfl) m hm))
  | cons pd t =>
    simp only [test_package] at hm
    rcases List.mem_append.mp hm with hX | hTail
    · rcases List.mem_append.mp hX with hY | hFinal
      · rcases List.mem_append.mp hY with hZ | hReadme
        · rcases List.mem_append.mp hZ with hW | hConf
          · rcases List.mem_append.mp hW with hV | hPlug
            · rcases List.mem_append.mp hV with hM1 | hBin
              · exact absurd hout (err_ne_out (all_err_mem (by rfl) m hM1))
              · split at hBin <;>
                  exact absurd hout (err_ne_out (all_err_mem (by rfl) m hBin))
            · split at hPlug
              · exact absurd hout (err_ne_out (all_err_mem (by rfl) m hPlug))
              · exact absurd hPlug (List.not_mem_nil m)
          · split at hConf
            · exact absurd hout (err_ne_out (all_err_mem (by rfl) m hConf))
            · exact absurd hConf (List.not_mem_nil m)
        · split at hReadme
          · simp only [List.mem_cons, List.not_mem_nil, or_false] at hReadme
            rcases hReadme with rfl | rfl | rfl | rfl | rfl
            · exact absurd hout (err_ne_out rfl)
            · exact absurd hout (err_ne_out rfl)
            · exact Or.inl rfl
            · exact Or.inr ⟨pd, rfl, rfl⟩
            · exact Or.inl rfl
          · exact absurd hout (err_ne_out (all_err_mem (by rfl) m hReadme))
      · split at hFinal <;>
          exact absurd hout (err_ne_out (all_err_mem (by rfl) m hFinal))
    · exact absurd hout (err_ne_out (all_err_mem (by rfl) m hTail))

/-- The empty message list trivially obeys the stdout discipline. -/
theorem stdout_nil {w : ExtWorld} : ∀ m ∈ ([] : List Msg), stdoutOk w m := by
  intro m hm
  exact absurd hm (List.not_mem_nil m)

/-- Concatenation preserves the stdout discipline. -/
theorem stdout_append {w : ExtWorld} {a b : List Msg}
    (ha : ∀ m ∈ a, stdoutOk w m) (hb : ∀ m ∈ b, stdoutOk w m) :
    ∀ m ∈ a ++ b, stdoutOk w m := by
  intro m hm
  rcases List.mem_append.mp hm with h | h
  · exact ha m h
  · exact hb m h

/-- A stderr message vacuously obeys the stdout discipline. -/
theorem stdoutOk_of_err {w : ExtWorld} {m : Msg} (h : m.1 = Chan.err) : stdoutOk w m :=
  fun h2 => absurd h2 (err_ne_out h)

/-- A list of stderr messages obeys the stdout discipline. -/
theorem stdout_of_err {w : ExtWorld} {ms : List Msg}
    (h : ∀ m ∈ ms, m.1 = Chan.err) : ∀ m ∈ ms, stdoutOk w m :=
  fun m hm => stdoutOk_of_err (h m hm)

/-- Prepending a compliant message preserves the stdout discipline. -/
theorem stdout_cons {w : ExtWorld} {m0 : Msg} {ms : List Msg}
    (h0 : stdoutOk w m0) (h : ∀ m ∈ ms, stdoutOk w m) :
    ∀ m ∈ m0 :: ms, stdoutOk w m := by
  intro m hm
  rcases List.mem_cons.mp hm with rfl | hm
  · exact h0
  · exact h m hm

/-- The blank spacer line obeys the stdout discipline. -/
theorem stdoutOk_blank {w : ExtWorld} : stdoutOk w (msgOut "") :=
  fun _ => Or.inl rfl

/-- All `test_package` messages obey the stdout discipline. -/
theorem stdout_test (w : ExtWorld) (p : String) :
    ∀ m ∈ (test_package w.windows p w.tree).2, stdoutOk w m := by
  intro m hm hout
  rcases test_package_out w.windows p w.tree m hm hout with h | h
  · exact Or.inr (Or.inl h)
  · exact Or.inr (Or.inr h)

set_option maxHeartbeats 1000000 in
/-- All messages printed by the stage sequencer obey the stdout
discipline. -/
theorem runStages_stdout (a1 a2 a3 : Bool) (bd config output target : String)
    (jobs : Int) (extract : Bool) (w : ExtWorld) :
    ∀ m ∈ (runStages a1 a2 a3 bd config output target jobs extract w).2.1,
      stdoutOk w m := by
  intro m hm
  simp only [runStages] at hm
  set c : StRes FsState :=
    (if a1 then clean_build_directory bd w.fs0
     else ⟨w.fs0, [], [], none⟩) with hcdef
  have hc : ∀ x ∈ c.msgs, x.1 = Chan.err := by
    rw [hcdef]
    split
    · exact clean_msgs_err _ _
    · intro x hx
      exact absurd hx (List.not_mem_nil x)
  clear_value c
  set cfg : StRes FsState := configure_cmake c.val bd config a3 w.confRes with hcfgdef
  have hcfg : ∀ x ∈ cfg.msgs, x.1 = Chan.err := by
    rw [hcfgdef]
    exact configure_msgs_err _ _ _ _ _
  clear_value cfg
  set bld : StRes Unit := build_project bd config jobs a3 w.buildRes with hblddef
  have hbld : ∀ x ∈ bld.msgs, x.1 = Chan.err := by
    rw [hblddef]
    exact build_msgs_err _ _ _ _ _
  clear_value bld
  set pkg : StRes (Option String) := create_package bd target a3 w.pkgRes w.entries
    with hpkgdef
  have hpkg : ∀ x ∈ pkg.msgs, x.1 = Chan.err := by
    rw [hpkgdef]
    exact create_msgs_err _ _ _ _ _
  clear_value pkg
  repeat' split at hm
  all_goals (
    dsimp only at hm
    revert m hm
    repeat' first
      | exact stdout_nil
      | exact stdout_of_err hc
      | exact stdout_of_err hcfg
      | exact stdout_of_err hbld
      | exact stdout_of_err hpkg
      | exact stdout_of_err (extract_msgs_err _ _ _)
      | exact stdout_of_err (copy_msgs_err _ _)
      | exact stdout_test _ _
      | exact stdoutOk_of_err (caughtMsg_err _)
      | exact stdoutOk_blank
      | exact stdoutOk_of_err rfl
      | apply stdout_append
      | apply stdout_cons)

/-- Claim C2 as stated is false: in the concrete run `argsC2`/`worldC2` the
standard output stream carries content — the pipeline's blank spacer line,
the README separator line, and the README contents printed by the
validation stage. -/
theorem stdout_not_clean_cex :
    (Chan.out, "") ∈ (mainRun argsC2 worldC2).2.1
    ∧ (Chan.out, sepLine) ∈ (mainRun argsC2 worldC2).2.1
    ∧ (Chan.out, String.join (pdC2.readmeLines.take 20)) ∈ (mainRun argsC2 worldC2).2.1 := by
  decide

/-- Claim C2 amended: every bracketed progress or diagnostic message goes to
the error stream, but standard output is not empty — it receives exactly the
pipeline's blank spacer lines and, when the validation stage finds a
README.txt, the two separator lines and the README's first 20 lines. -/
theorem stdout_content (args : Args) (w : ExtWorld) :
    ∀ m ∈ (mainRun args w).2.1, stdoutOk w m := by
  simp only [mainRun]
  by_cases h : startswith args.target "package-"
  all_goals
    simp only [h, if_true, if_false, ite_true, ite_false]
  all_goals
    repeat' first
      | exact runStages_stdout _ _ _ _ _ _ _ _ _ _
      | exact stdout_nil
      | exact stdoutOk_blank
      | exact stdoutOk_of_err rfl
      | apply stdout_cons

/-- Witness for `stdout_content` at the concrete run `argsC2`/`worldC2` and
the blank spacer message. -/
theorem stdout_content_witness : stdoutOk worldC2 (Chan.out, "") :=
  stdout_content argsC2 worldC2 (Chan.out, "") (by decide)

/-- Claim C7: when all external commands succeed but no build-directory
entry matches any archive pattern, the missing-artifact condition is fatal —
the error is reported, the exit status is 1, and no later stage (extraction,
publishing) performs any effect. -/
theorem no_artifact_fatal (args : Args) (w : ExtWorld)
    (hc : w.confRes = CmdOutcome.ok) (hb : w.buildRes = CmdOutcome.ok)
    (hp : w.pkgRes = CmdOutcome.ok) (hf : findPackage w.entries = none) :
    (mainRun args w).1 = 1
    ∧ msgError "Packaging failed" ∈ (mainRun args w).2.1
    ∧ ∀ e ∈ (mainRun args w).2.2, e.isMadeTempDir = false ∧ e.isCopied = false := by
  simp only [mainRun, runStages, hc, hb, hp, configure_ok_exc, build_ok_exc,
    create_ok_exc, create_ok_val, hf]
  refine ⟨trivial, ?_, ?_⟩
  · simp [List.mem_append]
  · intro e he
    simp only [List.mem_append] at he
    rcases he with ((he | he) | he) | he
    · split at he
      · exact clean_effs_safe _ _ e he
      · exact absurd he (List.not_mem_nil e)
    · exact configure_effs_safe _ _ _ _ _ e he
    · exact build_effs_safe _ _ _ _ _ e he
    · exact create_effs_safe _ _ _ _ _ e he

/-- Witness for `no_artifact_fatal`: a run whose build directory holds only
`notes.txt` exits with status 1. -/
theorem no_artifact_fatal_witness :
    (mainRun ⟨"package-app", "build", "Release", "", 4, false, false, false, false⟩
       ⟨Except.ok 8, ⟨true, true⟩, CmdOutcome.ok, CmdOutcome.ok, CmdOutcome.ok,
        ["notes.txt"], false, "tmpdir", ⟨[], []⟩, false⟩).1 = 1 :=
  (no_artifact_fatal _ _ rfl rfl rfl (by rfl)).1

/-- Claim C1 as stated is false: in the run `argsC1`/`worldC1` verification
was requested and the extraction stage fails with the unsupported-format
condition (the discovered artifact `.zip` has an empty path suffix), yet the
exit status is 0, not 1, and the publishing stage still runs. -/
theorem extraction_failure_not_fatal_cex :
    (mainRun argsC1 worldC1).1 = 0
    ∧ Effect.copied "dist" ".zip" ∈ (mainRun argsC1 worldC1).2.2
    ∧ msgError ("Unknown package format: " ++ ("build" ++ "/" ++ ".zip"))
        ∈ (mainRun argsC1 worldC1).2.1 := by
  decide

/-- Claim C1 amended: when verification was requested and the discovered
artifact's extension is neither gzip-tar nor zip, the unsupported-format
condition is not fatal — the error message is printed, validation is
skipped, publishing still runs when an output directory was supplied, and
the exit status is 0.  (Only extraction failures that raise an exception
abort the pipeline with status 1.) -/
theorem unsupported_format_nonfatal (args : Args) (w : ExtWorld) (f : String)
    (hc : w.confRes = CmdOutcome.ok) (hb : w.buildRes = CmdOutcome.ok)
    (hp : w.pkgRes = CmdOutcome.ok) (hf : findPackage w.entries = some f)
    (hx : args.extract = true)
    (hg : pySuffix f ≠ ".gz") (hz : pySuffix f ≠ ".zip") :
    (mainRun args w).1 = 0
    ∧ msgError ("Unknown package format: " ++ (args.buildDir ++ "/" ++ f))
        ∈ (mainRun args w).2.1
    ∧ (args.output ≠ "" → Effect.copied args.output f ∈ (mainRun args w).2.2) := by
  simp only [mainRun, runStages, hc, hb, hp, configure_ok_exc, build_ok_exc,
    create_ok_exc, create_ok_val, hf, hx, Bool.true_or]
  simp only [extract_package, if_neg hg, if_neg hz, if_true, ite_true]
  refine ⟨trivial, ?_, ?_⟩
  · simp [List.mem_append]
  · intro ho
    simp only [if_neg ho, copy_to_output]
    simp [List.mem_append]

/-- Witness for `unsupported_format_nonfatal` at the concrete run
`argsC1`/`worldC1`. -/
theorem unsupported_format_nonfatal_witness :
    (mainRun argsC1 worldC1).1 = 0
    ∧ Effect.copied "dist" ".zip" ∈ (mainRun argsC1 worldC1).2.2 := by
  have h := unsupported_format_nonfatal argsC1 worldC1 ".zip"
    rfl rfl rfl rfl rfl (by decide) (by decide)
  exact ⟨h.1, h.2.2 (by decide)⟩
